import Mathlib

/-!
Shallow embedding of the `duende` rendering front end, covering the
per-frame application context (`src/application_context.rs`), the
change-tracked cell (`src/utils/mut_cell.rs`), the deferred command queue
and shader cache (`src/common/drawables.rs`), and the per-drawable program
cache (`src/common/wrappers.rs`).

Effectful Rust code is modelled by explicit state passing: GPU side
effects (clear-color calls, buffer clears, executed deferred operations,
shader deletes) are recorded in trace fields so theorems can count them.
-/

namespace Duende

/-- `GlError` from `src/common/errors.rs`: the two GL-level error variants. -/
inductive GlError where
  | ShaderCompile (msg : String)
  | ProgramLink (msg : String)
deriving DecidableEq, Repr

/-- `MutCell<T>` from `src/utils/mut_cell.rs`: a value plus a dirty flag. -/
structure MutCell (T : Type) where
  value : T
  has_changed : Bool
deriving DecidableEq, Repr

/-- `MutCell::new`: stores the value and starts with `has_changed = true`. -/
def MutCell.new {T : Type} (value : T) : MutCell T :=
  { value := value, has_changed := true }

/-- `MutCell::set`: replaces the value and sets the dirty flag. -/
def MutCell.set {T : Type} (_c : MutCell T) (value : T) : MutCell T :=
  { value := value, has_changed := true }

/-- `MutCell::execute_on_change`: if dirty, yield the current value (the
argument the closure would receive) and clear the flag; otherwise yield
nothing and leave the cell unchanged. -/
def MutCell.execute_on_change {T : Type} (c : MutCell T) : Option T × MutCell T :=
  if c.has_changed then (some c.value, { c with has_changed := false })
  else (none, c)

/-- `RendererContext` from `src/common/drawables.rs`: the per-frame deferred
command queue. Deferred zero-argument operations are type-erased boxed
closures in the source; here they are elements of an arbitrary type `α`.
The `Vec` grows at the back (`push`) and `pop` removes from the back. -/
structure RendererContext (α : Type) where
  command_queue : List α
deriving DecidableEq, Repr

/-- `RendererContext::new`: empty command queue. -/
def RendererContext.new {α : Type} : RendererContext α :=
  { command_queue := [] }

/-- `RendererContext::add_commands`: `Vec::push`, appending at the back. -/
def RendererContext.add_commands {α : Type} (ctx : RendererContext α) (queue : α) :
    RendererContext α :=
  { ctx with command_queue := ctx.command_queue ++ [queue] }

/-- Recording a whole list of deferred operations in order, by repeated
`add_commands`. -/
def RendererContext.record_all {α : Type} (ctx : RendererContext α) (ops : List α) :
    RendererContext α :=
  ops.foldl RendererContext.add_commands ctx

/-- The flush loop `while let Some(commands) = queue.pop() { commands() }`:
`Vec::pop` removes the back element, so execution order is back-to-front.
Returns the list of operations in the order they are executed. -/
def drainCommandQueue {α : Type} : List α → List α
  | [] => []
  | x :: xs => (x :: xs).getLast (by simp) :: drainCommandQueue (x :: xs).dropLast
termination_by l => l.length
decreasing_by simp

/-- `InternalColor` from `src/application_context.rs`: an RGBA quadruple.
The source uses `f32`; components are modelled as exact rationals. -/
structure InternalColor where
  red : ℚ
  green : ℚ
  blue : ℚ
  alpha : ℚ
deriving DecidableEq, Repr

/-- `impl Default for InternalColor`: `InternalColor(0.1, 0.1, 0.1, 0.9)`. -/
def InternalColor.default : InternalColor :=
  { red := 1/10, green := 1/10, blue := 1/10, alpha := 9/10 }

/-- `Command` from `src/application_context.rs`: pending output commands. -/
inductive Command where
  | Exit
  | CursorGrab (enable : Bool)
  | CursorVisible (enable : Bool)
deriving DecidableEq, Repr

/-- `Event` from `src/application_context.rs`; `NamedKey` is an external
winit type, modelled by a natural-number key code. -/
inductive Event where
  | KeyPress (key : ℕ)
deriving DecidableEq, Repr

/-- A drawable (`trait Drawable`): `draw` receives the renderer context
mutably, may push deferred operations, and returns a `Result<(), GlError>`.
Modelled as a function from the context to the result and updated context. -/
structure Drawable (α : Type) where
  draw : RendererContext α → Except GlError Unit × RendererContext α

/-- `ApplicationContext` from `src/application_context.rs` (the fields the
claims observe; the GL display handle is an external collaborator). -/
structure ApplicationContext (α : Type) where
  input_events : Finset Event
  output_commands : List Command
  background_color : MutCell InternalColor
  renderer_context : RendererContext α
  exit_status : Except GlError Unit

/-- `ApplicationContext::new`: fresh per-frame state — no input events, no
output commands, default background color in a fresh `MutCell`, empty
command queue, `exit_status = Ok(())`. -/
def ApplicationContext.new {α : Type} : ApplicationContext α :=
  { input_events := ∅
    output_commands := []
    background_color := MutCell.new InternalColor.default
    renderer_context := RendererContext.new
    exit_status := Except.ok () }

/-- `ApplicationContext::pop_all_commands`: swap the accumulated output
command list with a fresh empty one and return the accumulated list. -/
def ApplicationContext.pop_all_commands {α : Type} (ctx : ApplicationContext α) :
    List Command × ApplicationContext α :=
  (ctx.output_commands, { ctx with output_commands := [] })

/-- `ApplicationContext::exit`: push `Command::Exit`. -/
def ApplicationContext.exit {α : Type} (ctx : ApplicationContext α) : ApplicationContext α :=
  { ctx with output_commands := ctx.output_commands ++ [Command.Exit] }

/-- `ApplicationContext::set_cursor_grab`: push `Command::CursorGrab(enable)`. -/
def ApplicationContext.set_cursor_grab {α : Type} (ctx : ApplicationContext α) (enable : Bool) :
    ApplicationContext α :=
  { ctx with output_commands := ctx.output_commands ++ [Command.CursorGrab enable] }

/-- `ApplicationContext::set_cursor_visible`: push `Command::CursorVisible(enable)`. -/
def ApplicationContext.set_cursor_visible {α : Type} (ctx : ApplicationContext α) (enable : Bool) :
    ApplicationContext α :=
  { ctx with output_commands := ctx.output_commands ++ [Command.CursorVisible enable] }

/-- `red as f32 / u8::MAX as f32`: normalize a `u8` component to `[0, 1]`. -/
def u8_normalize (x : Fin 256) : ℚ :=
  (x.val : ℚ) / 255

/-- `ApplicationContext::set_background_color`: normalize the four `u8`
components and store them into the `MutCell`, marking it dirty. -/
def ApplicationContext.set_background_color {α : Type} (ctx : ApplicationContext α)
    (red green blue alpha : Fin 256) : ApplicationContext α :=
  let color : InternalColor :=
    { red := u8_normalize red, green := u8_normalize green
      blue := u8_normalize blue, alpha := u8_normalize alpha }
  { ctx with background_color := ctx.background_color.set color }

/-- `ApplicationContext::add_event`: `HashSet::insert` (idempotent). -/
def ApplicationContext.add_event {α : Type} (ctx : ApplicationContext α) (event : Event) :
    ApplicationContext α :=
  { ctx with input_events := insert event ctx.input_events }

/-- `ApplicationContext::is_key_pressed`: pure membership lookup. -/
def ApplicationContext.is_key_pressed {α : Type} (ctx : ApplicationContext α) (key : ℕ) : Bool :=
  Event.KeyPress key ∈ ctx.input_events

/-- `ApplicationContext::draw_game_object`: run the drawable's `draw`
against the renderer context and assign its result to `exit_status`
unconditionally. -/
def ApplicationContext.draw_game_object {α : Type} (ctx : ApplicationContext α)
    (object : Drawable α) : ApplicationContext α :=
  let result := object.draw ctx.renderer_context
  { ctx with renderer_context := result.2, exit_status := result.1 }

/-- The GPU side effects performed by one `ApplicationContext::draw` call:
the `gl::ClearColor` calls issued, the number of `gl::Clear` calls, and the
deferred operations executed, in execution order. -/
structure FlushTrace (α : Type) where
  clear_color_calls : List InternalColor
  buffer_clears : ℕ
  executed : List α
deriving DecidableEq, Repr

/-- `ApplicationContext::draw` (the flush): if `exit_status` holds an error,
return a clone of it immediately with no GPU effects and no state change;
otherwise apply the background color on change, clear the color and depth
buffers, and drain the command queue back-to-front. Returns the `Result`,
the updated context, and the trace of GPU effects. -/
def ApplicationContext.draw {α : Type} (ctx : ApplicationContext α) :
    Except GlError Unit × ApplicationContext α × FlushTrace α :=
  match ctx.exit_status with
  | Except.error e =>
      (Except.error e, ctx, { clear_color_calls := [], buffer_clears := 0, executed := [] })
  | Except.ok _ =>
      let bg := ctx.background_color.execute_on_change
      let executed := drainCommandQueue ctx.renderer_context.command_queue
      (Except.ok (),
       { ctx with background_color := bg.2
                  renderer_context := { ctx.renderer_context with command_queue := [] } },
       { clear_color_calls := bg.1.toList, buffer_clears := 1, executed := executed })

/-- The shared state behind one `Shader<T>` (`src/common/drawables.rs`):
the `Arc<AtomicU32>` cell holding the compiled id, together with its strong
reference count. The `LazyLock` inside the `Shader` owns one reference, so
a fresh shader has `strong_count = 1`; every live `ShaderHandle` (a clone
of the `Arc`) adds one. `compile_calls` counts `compile_shader` invocations
and `deleted` logs `gl::DeleteShader` calls (instrumentation of effects). -/
structure ShaderState where
  strong_count : ℕ
  shader_id : ℕ
  compile_calls : ℕ
  deleted : List ℕ
deriving DecidableEq, Repr

/-- `Shader::get_shader_handle`: if the strong count is exactly 1 (only the
cache's own reference exists), invoke the compiler; on failure propagate
the error without storing anything; on success store the compiled id and
mint a handle (an `Arc` clone, incrementing the count). If the count is not
1, mint a handle without compiling. `compile_result` is the outcome the
driver's compiler would report on this invocation. -/
def get_shader_handle (s : ShaderState) (compile_result : Except GlError ℕ) :
    Except GlError Unit × ShaderState :=
  if s.strong_count = 1 then
    match compile_result with
    | Except.error e => (Except.error e, { s with compile_calls := s.compile_calls + 1 })
    | Except.ok sid =>
        (Except.ok (),
         { s with shader_id := sid
                  compile_calls := s.compile_calls + 1
                  strong_count := s.strong_count + 1 })
  else
    (Except.ok (), { s with strong_count := s.strong_count + 1 })

/-- `impl Drop for ShaderHandle`: when the strong count (still including the
handle being dropped) is exactly 2, issue `gl::DeleteShader` on the stored
id; then the handle's `Arc` reference goes away, decrementing the count. -/
def drop_shader_handle (s : ShaderState) : ShaderState :=
  let s1 := if s.strong_count = 2 then { s with deleted := s.deleted ++ [s.shader_id] } else s
  { s1 with strong_count := s1.strong_count - 1 }

/-- Dropping `n` handles in sequence. -/
def drop_handles : ℕ → ShaderState → ShaderState
  | 0, s => s
  | n + 1, s => drop_handles n (drop_shader_handle s)

/-- `ProgramWrapper` from `src/common/wrappers.rs`: a per-drawable
`OnceCell<Result<Program, GlError>>`. The memoized `Program` is represented
by its `program_id`, the only field `get_program_id` reads. -/
structure ProgramWrapper where
  program : Option (Except GlError ℕ)
deriving Repr

/-- `ProgramWrapper::new`: uninitialized cell. -/
def ProgramWrapper.new : ProgramWrapper :=
  { program := none }

/-- `ProgramWrapper::get_program_id`: `OnceCell::get_or_init` with the
compile-and-link closure. `link_result` is the outcome that closure would
produce on this invocation. Returns the `Result` (the program id on
success, a clone of the stored error on failure), the updated wrapper, and
the number of times the closure was invoked during this call (0 or 1). -/
def ProgramWrapper.get_program_id (w : ProgramWrapper) (link_result : Except GlError ℕ) :
    Except GlError ℕ × ProgramWrapper × ℕ :=
  match w.program with
  | some r => (r, w, 0)
  | none => (link_result, { program := some link_result }, 1)

/-! ## Helper lemmas -/

/-- Draining a queue with a freshly pushed back element executes that
element first. -/
theorem drainCommandQueue_concat {α : Type} (l : List α) (a : α) :
    drainCommandQueue (l ++ [a]) = a :: drainCommandQueue l := by
  cases l with
  | nil => simp [drainCommandQueue]
  | cons x xs =>
    conv_lhs => rw [show (x :: xs ++ [a] : List α) = x :: (xs ++ [a]) from rfl]
    rw [drainCommandQueue.eq_2]
    congr 1
    · simp [List.getLast_append]
    · congr 1
      rw [← List.cons_append, List.dropLast_concat]

/-- The pop loop executes the queue in reverse recording order. -/
theorem drainCommandQueue_eq_reverse {α : Type} (l : List α) :
    drainCommandQueue l = l.reverse := by
  induction l using List.reverseRecOn with
  | nil => simp [drainCommandQueue]
  | append_singleton l a ih =>
    rw [drainCommandQueue_concat, ih, List.reverse_append]
    rfl

/-- `record_all` appends the recorded operations in order. -/
theorem record_all_queue {α : Type} (ctx : RendererContext α) (ops : List α) :
    (RendererContext.record_all ctx ops).command_queue = ctx.command_queue ++ ops := by
  induction ops generalizing ctx with
  | nil => simp [RendererContext.record_all]
  | cons a l ih =>
    show (RendererContext.record_all (ctx.add_commands a) l).command_queue = _
    rw [ih]
    simp [RendererContext.add_commands]

/-! ## Claims -/

/-- C1: for every sequence of deferred operations recorded into the command
queue during a frame, in order, a successful flush executes them in
last-in-first-out order — the most recently recorded operation executes
first, and the drain is not FIFO (the executed order is the reverse of the
recorded order, and the queue is left empty). -/
theorem flush_drains_queue_lifo {α : Type} (ctx : ApplicationContext α) (ops : List α)
    (hok : ctx.exit_status = Except.ok ())
    (hq : ctx.renderer_context.command_queue = ops) :
    (ctx.draw).1 = Except.ok () ∧
    (ctx.draw).2.2.executed = ops.reverse ∧
    (ctx.draw).2.1.renderer_context.command_queue = [] := by
  simp [ApplicationContext.draw, hok, hq, drainCommandQueue_eq_reverse]

/-- Concrete frame state for the LIFO witness: operations `[1, 2, 3]`
recorded in that order into a fresh context. -/
def sampleCtxC1 : ApplicationContext ℕ :=
  { (ApplicationContext.new : ApplicationContext ℕ) with
      renderer_context := RendererContext.record_all RendererContext.new [1, 2, 3] }

/-- Witness for C1: recording `[1, 2, 3]` and flushing executes `[3, 2, 1]`. -/
theorem flush_drains_queue_lifo_witness :
    (sampleCtxC1.draw).1 = Except.ok () ∧
    (sampleCtxC1.draw).2.2.executed = [3, 2, 1] ∧
    (sampleCtxC1.draw).2.1.renderer_context.command_queue = [] := by
  have h := flush_drains_queue_lifo sampleCtxC1 [1, 2, 3] rfl rfl
  exact h

/-- C2: when `exit_status` already holds an error, flush returns that exact
stored error immediately, executes zero queued operations, leaves the whole
context (including the command queue) unchanged, applies no clear color and
clears no buffer. -/
theorem flush_short_circuits_on_error {α : Type} (ctx : ApplicationContext α) (e : GlError)
    (herr : ctx.exit_status = Except.error e) :
    (ctx.draw).1 = Except.error e ∧
    (ctx.draw).2.1 = ctx ∧
    (ctx.draw).2.2 = ({ clear_color_calls := [], buffer_clears := 0, executed := [] } :
      FlushTrace α) := by
  simp [ApplicationContext.draw, herr]

/-- Concrete errored frame state with a pending queued operation. -/
def sampleCtxC2 : ApplicationContext ℕ :=
  { (ApplicationContext.new : ApplicationContext ℕ) with
      exit_status := Except.error (GlError.ShaderCompile "bad")
      renderer_context := RendererContext.new.add_commands 7 }

/-- Witness for C2 at a state whose stored error is a compile error and
whose queue holds one operation. -/
theorem flush_short_circuits_on_error_witness :
    (sampleCtxC2.draw).1 = Except.error (GlError.ShaderCompile "bad") ∧
    (sampleCtxC2.draw).2.1 = sampleCtxC2 ∧
    (sampleCtxC2.draw).2.2 = ({ clear_color_calls := [], buffer_clears := 0, executed := [] } :
      FlushTrace ℕ) :=
  flush_short_circuits_on_error sampleCtxC2 (GlError.ShaderCompile "bad") rfl

/-- C9: each exit / cursor-grab / cursor-visible request appends exactly one
command with no deduplication (two consecutive requests append two
commands, in request order), and `pop_all_commands` returns exactly the
accumulated list while leaving the pending list empty, so a second
consecutive take returns the empty list. -/
theorem output_commands_append_and_take {α : Type} (ctx : ApplicationContext α) (g v : Bool) :
    ctx.exit.output_commands = ctx.output_commands ++ [Command.Exit] ∧
    (ctx.set_cursor_grab g).output_commands = ctx.output_commands ++ [Command.CursorGrab g] ∧
    (ctx.set_cursor_visible v).output_commands =
      ctx.output_commands ++ [Command.CursorVisible v] ∧
    (ctx.exit.exit).output_commands = ctx.output_commands ++ [Command.Exit, Command.Exit] ∧
    ctx.pop_all_commands.1 = ctx.output_commands ∧
    ctx.pop_all_commands.2.output_commands = [] ∧
    ctx.pop_all_commands.2.pop_all_commands.1 = [] := by
  simp [ApplicationContext.exit, ApplicationContext.set_cursor_grab,
        ApplicationContext.set_cursor_visible, ApplicationContext.pop_all_commands]

/-- C10: the change-tracked background color cell is constructed dirty, the
default color is (0.1, 0.1, 0.1, 0.9), a fresh frame state's first flush
applies exactly one clear-color call with that default, and the following
flush applies none. -/
theorem fresh_context_first_flush_default_clear_color :
    (∀ (c : InternalColor), (MutCell.new c).has_changed = true) ∧
    InternalColor.default =
      ({ red := 1/10, green := 1/10, blue := 1/10, alpha := 9/10 } : InternalColor) ∧
    ((ApplicationContext.new : ApplicationContext ℕ)).draw.2.2.clear_color_calls =
      [InternalColor.default] ∧
    ((ApplicationContext.new : ApplicationContext ℕ)).draw.2.1.draw.2.2.clear_color_calls = [] :=
  ⟨fun _ => rfl, rfl, rfl, rfl⟩

/-- Concrete frame state whose stored exit status is an error. -/
def stuckErrorCtx : ApplicationContext ℕ :=
  { (ApplicationContext.new : ApplicationContext ℕ) with
      exit_status := Except.error (GlError.ProgramLink "link failed") }

/-- A drawable whose draw method succeeds and records nothing. -/
def succeedingDrawable : Drawable ℕ :=
  { draw := fun rc => (Except.ok (), rc) }

/-- C3 counterexample: a frame state holds a stored error, yet one
`record_draw` call with a drawable whose draw succeeds restores the exit
status to `Ok` — the stored error is cleared, contradicting "once set to an
error it is never cleared". -/
theorem record_draw_clears_error_counterexample :
    stuckErrorCtx.exit_status = Except.error (GlError.ProgramLink "link failed") ∧
    (stuckErrorCtx.draw_game_object succeedingDrawable).exit_status = Except.ok () :=
  ⟨rfl, rfl⟩

/-- C3 (amended): the stored error is sticky with respect to flushing —
flush returns it, never clears it, and repeated flushes keep returning it —
but `record_draw` unconditionally overwrites the exit status with the
drawable's result, so a later `record_draw` whose drawable succeeds does
restore it to `Ok`. -/
theorem exit_status_sticky_across_flushes {α : Type} (ctx : ApplicationContext α)
    (e : GlError) (d : Drawable α)
    (herr : ctx.exit_status = Except.error e) :
    (ctx.draw).1 = Except.error e ∧
    (ctx.draw).2.1.exit_status = Except.error e ∧
    ((ctx.draw).2.1.draw).1 = Except.error e ∧
    (ctx.draw_game_object d).exit_status = (d.draw ctx.renderer_context).1 := by
  refine ⟨?_, ?_, ?_, rfl⟩ <;> simp [ApplicationContext.draw, herr]

/-- Witness for amended C3 at a concrete errored state and succeeding
drawable. -/
theorem exit_status_sticky_across_flushes_witness :
    (stuckErrorCtx.draw).1 = Except.error (GlError.ProgramLink "link failed") ∧
    (stuckErrorCtx.draw).2.1.exit_status = Except.error (GlError.ProgramLink "link failed") ∧
    ((stuckErrorCtx.draw).2.1.draw).1 = Except.error (GlError.ProgramLink "link failed") ∧
    (stuckErrorCtx.draw_game_object succeedingDrawable).exit_status =
      (succeedingDrawable.draw stuckErrorCtx.renderer_context).1 :=
  exit_status_sticky_across_flushes stuckErrorCtx (GlError.ProgramLink "link failed")
    succeedingDrawable rfl

/-- C4: `record_draw` unconditionally overwrites the exit status with the
result returned by the drawable's draw method; consequently, when several
drawables error within one frame, the last recorded error wins. -/
theorem record_draw_overwrites_exit_status {α : Type} (ctx : ApplicationContext α)
    (d1 d2 : Drawable α) (e1 e2 : GlError)
    (h1 : ∀ rc, (d1.draw rc).1 = Except.error e1)
    (h2 : ∀ rc, (d2.draw rc).1 = Except.error e2) :
    (∀ (c : ApplicationContext α) (d : Drawable α),
        (c.draw_game_object d).exit_status = (d.draw c.renderer_context).1) ∧
    (ctx.draw_game_object d1).exit_status = Except.error e1 ∧
    ((ctx.draw_game_object d1).draw_game_object d2).exit_status = Except.error e2 := by
  refine ⟨fun c d => rfl, h1 _, ?_⟩
  show (d2.draw _).1 = Except.error e2
  exact h2 _

/-- A drawable that always fails with a first error. -/
def failingDrawableA : Drawable ℕ :=
  { draw := fun rc => (Except.error (GlError.ShaderCompile "first"), rc) }

/-- A drawable that always fails with a second error. -/
def failingDrawableB : Drawable ℕ :=
  { draw := fun rc => (Except.error (GlError.ShaderCompile "second"), rc) }

/-- Witness for C4: recording two failing drawables leaves the second error. -/
theorem record_draw_overwrites_exit_status_witness :
    (∀ (c : ApplicationContext ℕ) (d : Drawable ℕ),
        (c.draw_game_object d).exit_status = (d.draw c.renderer_context).1) ∧
    ((ApplicationContext.new : ApplicationContext ℕ).draw_game_object
        failingDrawableA).exit_status = Except.error (GlError.ShaderCompile "first") ∧
    (((ApplicationContext.new : ApplicationContext ℕ).draw_game_object
        failingDrawableA).draw_game_object failingDrawableB).exit_status =
      Except.error (GlError.ShaderCompile "second") :=
  record_draw_overwrites_exit_status ApplicationContext.new failingDrawableA failingDrawableB
    (GlError.ShaderCompile "first") (GlError.ShaderCompile "second")
    (fun _ => rfl) (fun _ => rfl)

/-- C5: with only the cache's internal reference alive (strong count 1), a
first handle request invokes the compiler; a second request without
dropping the first does not compile again (the compile count rises by
exactly one over both requests) and observes the same stored compiled
identifier; in general no request compiles unless the strong count is
exactly one. -/
theorem shader_compiled_exactly_once (s : ShaderState) (sid oracle2 : ℕ)
    (h1 : s.strong_count = 1) :
    (get_shader_handle s (Except.ok sid)).1 = Except.ok () ∧
    (get_shader_handle s (Except.ok sid)).2.compile_calls = s.compile_calls + 1 ∧
    (get_shader_handle s (Except.ok sid)).2.shader_id = sid ∧
    (get_shader_handle (get_shader_handle s (Except.ok sid)).2 (Except.ok oracle2)).1 =
      Except.ok () ∧
    (get_shader_handle (get_shader_handle s (Except.ok sid)).2
        (Except.ok oracle2)).2.compile_calls = s.compile_calls + 1 ∧
    (get_shader_handle (get_shader_handle s (Except.ok sid)).2 (Except.ok oracle2)).2.shader_id =
      sid ∧
    (∀ (t : ShaderState) (cr : Except GlError ℕ), t.strong_count ≠ 1 →
        (get_shader_handle t cr).2.compile_calls = t.compile_calls ∧
        (get_shader_handle t cr).2.shader_id = t.shader_id) := by
  refine ⟨?_, ?_, ?_, ?_, ?_, ?_, ?_⟩
  · simp [get_shader_handle, h1]
  · simp [get_shader_handle, h1]
  · simp [get_shader_handle, h1]
  · simp [get_shader_handle, h1]
  · simp [get_shader_handle, h1]
  · simp [get_shader_handle, h1]
  · intro t cr ht
    constructor <;> simp [get_shader_handle, ht]

/-- A fresh shader cell: only the internal reference, nothing compiled. -/
def freshShaderState : ShaderState :=
  { strong_count := 1, shader_id := 0, compile_calls := 0, deleted := [] }

/-- Witness for C5: two requests on a fresh shader compile once and share id 5. -/
theorem shader_compiled_exactly_once_witness :
    (get_shader_handle freshShaderState (Except.ok 5)).1 = Except.ok () ∧
    (get_shader_handle freshShaderState (Except.ok 5)).2.compile_calls =
      freshShaderState.compile_calls + 1 ∧
    (get_shader_handle freshShaderState (Except.ok 5)).2.shader_id = 5 ∧
    (get_shader_handle (get_shader_handle freshShaderState (Except.ok 5)).2 (Except.ok 9)).1 =
      Except.ok () ∧
    (get_shader_handle (get_shader_handle freshShaderState (Except.ok 5)).2
        (Except.ok 9)).2.compile_calls = freshShaderState.compile_calls + 1 ∧
    (get_shader_handle (get_shader_handle freshShaderState (Except.ok 5)).2
        (Except.ok 9)).2.shader_id = 5 ∧
    (∀ (t : ShaderState) (cr : Except GlError ℕ), t.strong_count ≠ 1 →
        (get_shader_handle t cr).2.compile_calls = t.compile_calls ∧
        (get_shader_handle t cr).2.shader_id = t.shader_id) :=
  shader_compiled_exactly_once freshShaderState 5 9 rfl

/-- Dropping all `n` remaining external handles (strong count `n + 1`,
including the cache's internal reference) issues exactly one delete of the
stored shader id, at the last drop, and leaves only the internal reference. -/
theorem drop_handles_last_deletes (n : ℕ) :
    ∀ (s : ShaderState), 1 ≤ n → s.strong_count = n + 1 →
      (drop_handles n s).deleted = s.deleted ++ [s.shader_id] ∧
      (drop_handles n s).strong_count = 1 := by
  induction n with
  | zero => intro s h _; exact absurd h (by decide)
  | succ n ih =>
    intro s _ hc
    cases Nat.eq_zero_or_pos n with
    | inl h0 =>
      subst h0
      have h2 : s.strong_count = 2 := hc
      simp [drop_handles, drop_shader_handle, h2]
    | inr hpos =>
      have hne : ¬ s.strong_count = 2 := by omega
      show (drop_handles n (drop_shader_handle s)).deleted = _ ∧ _
      have hds : (drop_shader_handle s).strong_count = n + 1 := by
        simp [drop_shader_handle, hne]
        omega
      have hdd : (drop_shader_handle s).deleted = s.deleted := by
        simp [drop_shader_handle, hne]
      have hdi : (drop_shader_handle s).shader_id = s.shader_id := by
        simp [drop_shader_handle]
        split <;> rfl
      obtain ⟨hA, hB⟩ := ih (drop_shader_handle s) hpos hds
      rw [hA, hdd, hdi]
      exact ⟨rfl, hB⟩

/-- C6: a handle drop issues the GPU delete exactly when the strong count is
2 (the cache's internal reference plus the disappearing external handle);
a drop while the count is at least 3 (e.g. a live Program still holds an
equivalent handle) deletes nothing; and dropping all external handles
deletes the stored shader id exactly once. -/
theorem shader_deleted_on_last_external_drop (s t : ShaderState) (n : ℕ)
    (hn : 1 ≤ n) (hc : s.strong_count = n + 1) (ht : 3 ≤ t.strong_count) :
    (drop_shader_handle t).deleted = t.deleted ∧
    (∀ (u : ShaderState), u.strong_count = 2 →
        (drop_shader_handle u).deleted = u.deleted ++ [u.shader_id] ∧
        (drop_shader_handle u).strong_count = 1) ∧
    (drop_handles n s).deleted = s.deleted ++ [s.shader_id] ∧
    (drop_handles n s).strong_count = 1 := by
  refine ⟨?_, ?_, ?_, ?_⟩
  · have hne : ¬ t.strong_count = 2 := by omega
    simp [drop_shader_handle, hne]
  · intro u hu
    constructor <;> simp [drop_shader_handle, hu]
  · exact (drop_handles_last_deletes n s hn hc).1
  · exact (drop_handles_last_deletes n s hn hc).2

/-- A shader cell with compiled id 7 and two external handles alive
(strong count 3 = internal reference + two handles). -/
def sharedShaderState : ShaderState :=
  { strong_count := 3, shader_id := 7, compile_calls := 1, deleted := [] }

/-- Witness for C6: with two external handles on id 7, the first drop
deletes nothing and dropping both deletes id 7 exactly once. -/
theorem shader_deleted_on_last_external_drop_witness :
    (drop_shader_handle sharedShaderState).deleted = sharedShaderState.deleted ∧
    (∀ (u : ShaderState), u.strong_count = 2 →
        (drop_shader_handle u).deleted = u.deleted ++ [u.shader_id] ∧
        (drop_shader_handle u).strong_count = 1) ∧
    (drop_handles 2 sharedShaderState).deleted =
      sharedShaderState.deleted ++ [sharedShaderState.shader_id] ∧
    (drop_handles 2 sharedShaderState).strong_count = 1 :=
  shader_deleted_on_last_external_drop sharedShaderState sharedShaderState 2
    (by decide) rfl (by decide)

/-- C7: the per-drawable program cache memoizes the first link result,
successful or failed: the first request invokes the compile-and-link
closure exactly once and stores its result; every later request returns the
stored result without invoking the closure, and the cache never returns to
the uninitialized state. -/
theorem program_cache_memoizes_first_result (w : ProgramWrapper) (r1 r2 : Except GlError ℕ)
    (hnone : w.program = none) :
    (w.get_program_id r1).1 = r1 ∧
    (w.get_program_id r1).2.2 = 1 ∧
    (w.get_program_id r1).2.1.program = some r1 ∧
    ((w.get_program_id r1).2.1.get_program_id r2).1 = r1 ∧
    ((w.get_program_id r1).2.1.get_program_id r2).2.2 = 0 ∧
    ((w.get_program_id r1).2.1.get_program_id r2).2.1.program = some r1 ∧
    (∀ (v : ProgramWrapper) (x r : Except GlError ℕ),
        v.program = some x →
        (v.get_program_id r).1 = x ∧
        (v.get_program_id r).2.2 = 0 ∧
        (v.get_program_id r).2.1.program = some x) := by
  refine ⟨?_, ?_, ?_, ?_, ?_, ?_, ?_⟩
  · simp [ProgramWrapper.get_program_id, hnone]
  · simp [ProgramWrapper.get_program_id, hnone]
  · simp [ProgramWrapper.get_program_id, hnone]
  · simp [ProgramWrapper.get_program_id, hnone]
  · simp [ProgramWrapper.get_program_id, hnone]
  · simp [ProgramWrapper.get_program_id, hnone]
  · intro v x r hx
    refine ⟨?_, ?_, ?_⟩ <;> simp [ProgramWrapper.get_program_id, hx]

/-- Witness for C7: a failed first link (invalid GLSL) is cached; the second
request returns the same error with zero further closure invocations. -/
theorem program_cache_memoizes_first_result_witness :
    (ProgramWrapper.new.get_program_id (Except.error (GlError.ShaderCompile "bad glsl"))).1 =
      Except.error (GlError.ShaderCompile "bad glsl") ∧
    (ProgramWrapper.new.get_program_id (Except.error (GlError.ShaderCompile "bad glsl"))).2.2 =
      1 ∧
    (ProgramWrapper.new.get_program_id
        (Except.error (GlError.ShaderCompile "bad glsl"))).2.1.program =
      some (Except.error (GlError.ShaderCompile "bad glsl")) ∧
    ((ProgramWrapper.new.get_program_id
        (Except.error (GlError.ShaderCompile "bad glsl"))).2.1.get_program_id (Except.ok 3)).1 =
      Except.error (GlError.ShaderCompile "bad glsl") ∧
    ((ProgramWrapper.new.get_program_id
        (Except.error (GlError.ShaderCompile "bad glsl"))).2.1.get_program_id
        (Except.ok 3)).2.2 = 0 ∧
    ((ProgramWrapper.new.get_program_id
        (Except.error (GlError.ShaderCompile "bad glsl"))).2.1.get_program_id
        (Except.ok 3)).2.1.program =
      some (Except.error (GlError.ShaderCompile "bad glsl")) ∧
    (∀ (v : ProgramWrapper) (x r : Except GlError ℕ),
        v.program = some x →
        (v.get_program_id r).1 = x ∧
        (v.get_program_id r).2.2 = 0 ∧
        (v.get_program_id r).2.1.program = some x) :=
  program_cache_memoizes_first_result ProgramWrapper.new
    (Except.error (GlError.ShaderCompile "bad glsl")) (Except.ok 3) rfl

/-- C8: after two `set_background_color` calls between flushes, the next
successful flush issues exactly one clear-color call carrying the latest
value with each component normalized from 0–255 to rationals in `[0, 1]`,
and clears the dirty flag, so a following flush with no intervening set
issues no clear-color call. -/
theorem background_color_change_coalesced {α : Type} (ctx : ApplicationContext α)
    (r1 g1 b1 a1 r2 g2 b2 a2 : Fin 256)
    (hok : ctx.exit_status = Except.ok ()) :
    (((ctx.set_background_color r1 g1 b1 a1).set_background_color
        r2 g2 b2 a2).draw).2.2.clear_color_calls =
      [{ red := u8_normalize r2, green := u8_normalize g2
         blue := u8_normalize b2, alpha := u8_normalize a2 }] ∧
    (((ctx.set_background_color r1 g1 b1 a1).set_background_color
        r2 g2 b2 a2).draw).2.1.background_color.has_changed = false ∧
    ((((ctx.set_background_color r1 g1 b1 a1).set_background_color
        r2 g2 b2 a2).draw).2.1.draw).2.2.clear_color_calls = [] := by
  refine ⟨?_, ?_, ?_⟩ <;>
    simp [ApplicationContext.set_background_color, ApplicationContext.draw, hok,
          MutCell.set, MutCell.execute_on_change]

/-- Witness for C8 on a fresh context with colors (10,20,30,40) then
(50,60,70,255). -/
theorem background_color_change_coalesced_witness :
    ((((ApplicationContext.new : ApplicationContext ℕ).set_background_color
        10 20 30 40).set_background_color 50 60 70 255).draw).2.2.clear_color_calls =
      [{ red := u8_normalize 50, green := u8_normalize 60
         blue := u8_normalize 70, alpha := u8_normalize 255 }] ∧
    ((((ApplicationContext.new : ApplicationContext ℕ).set_background_color
        10 20 30 40).set_background_color 50 60 70 255).draw).2.1.background_color.has_changed =
      false ∧
    (((((ApplicationContext.new : ApplicationContext ℕ).set_background_color
        10 20 30 40).set_background_color 50 60 70 255).draw).2.1.draw).2.2.clear_color_calls =
      [] :=
  background_color_change_coalesced ApplicationContext.new 10 20 30 40 50 60 70 255 rfl

end Duende
